import Mathlib

/-!
Shallow embedding of the DevOps agent control-loop core (decision engine,
action executor, learning module, monitoring status/alert pass), translated
from the Python sources in src/.  Numeric metrics (Python floats) are modelled
as rationals; wall-clock datetimes as integer seconds; Python dicts as
association lists preserving insertion order; the randomized command/test
outcome source as an explicit oracle of booleans.
-/

namespace DevopsAgent

/-- A scalar parameter value, standing in for the dynamically typed values the
Python code stores in its parameter / detail dictionaries. -/
inductive PVal where
  | s (v : String)
  | n (v : Nat)
  | q (v : ℚ)
  | b (v : Bool)
deriving DecidableEq, Repr

/-- A parameter dictionary (`Dict[str, Any]` in the source). -/
abbrev Params := List (String × PVal)

/-- Dictionary lookup, `d.get(k)`. -/
def pfind (p : Params) (k : String) : Option PVal :=
  (p.find? (fun e => decide (e.1 = k))).map (fun e => e.2)

/-- Embeds `d.get(k, default)` for string values. -/
def pgetStr (p : Params) (k d : String) : String :=
  match pfind p k with
  | some (PVal.s v) => v
  | _ => d

/-- Embeds `d.get(k, default)` for natural-number values. -/
def pgetNat (p : Params) (k : String) (d : Nat) : Nat :=
  match pfind p k with
  | some (PVal.n v) => v
  | _ => d

/-- Embeds `d.get(k, default)` for boolean values. -/
def pgetBool (p : Params) (k : String) (d : Bool) : Bool :=
  match pfind p k with
  | some (PVal.b v) => v
  | _ => d

/-- Embeds `Priority` enum from decision_engine.py. -/
inductive Priority where
  | low
  | medium
  | high
  | critical
deriving DecidableEq, Repr

/-- The numeric value of a priority (`Priority.value` in the source). -/
def Priority.val : Priority → Nat
  | .low => 1
  | .medium => 2
  | .high => 3
  | .critical => 4

/-- The name of a priority (`Priority.name` in the source). -/
def Priority.pyName : Priority → String
  | .low => "LOW"
  | .medium => "MEDIUM"
  | .high => "HIGH"
  | .critical => "CRITICAL"

/-- Embeds `ActionType` enum from decision_engine.py. -/
inductive ActionType where
  | scale_up
  | scale_down
  | restart_service
  | deploy_update
  | rollback
  | update_config
  | create_alert
  | heal_service
  | optimize_performance
  | update_security
deriving DecidableEq, Repr

/-- The string value of an action type (`ActionType.value` in the source). -/
def ActionType.value : ActionType → String
  | .scale_up => "scale_up"
  | .scale_down => "scale_down"
  | .restart_service => "restart_service"
  | .deploy_update => "deploy_update"
  | .rollback => "rollback"
  | .update_config => "update_config"
  | .create_alert => "create_alert"
  | .heal_service => "heal_service"
  | .optimize_performance => "optimize_performance"
  | .update_security => "update_security"

/-- An alert dictionary as built by monitoring_system.py (keys id, type,
severity, message, timestamp; the isoformat timestamp is modelled as integer
seconds). -/
structure Alert where
  id : String
  atype : String
  severity : String
  message : String
  timestamp : Int
deriving DecidableEq, Repr

/-- The `Decision` dataclass from decision_engine.py. -/
structure Decision where
  action_type : ActionType
  priority : Priority
  target : String
  parameters : Params
  reasoning : String
  timestamp : Int
  expected_outcome : String
  rollback_plan : Option Params := none
deriving DecidableEq, Repr

/-- The `SystemState` dataclass from decision_engine.py.  `service_health` is
a Python dict (insertion-ordered, unique keys), modelled as an association
list. -/
structure SystemState where
  cpu_usage : ℚ
  memory_usage : ℚ
  disk_usage : ℚ
  network_usage : ℚ
  response_time : ℚ
  error_rate : ℚ
  request_count : Nat
  service_health : List (String × Bool)
  alerts : List Alert
  deployment_status : String
  last_deployment : Option Int
deriving DecidableEq, Repr

/-- The fields of the `ProjectContext` dataclass (devops_agent.py) consulted
by the decision engine: `project_type` and `performance_requirements`. -/
structure ProjectContext where
  project_type : String
  performance_requirements : Params
deriving DecidableEq, Repr

/-- The configuration keys consumed by the embedded core (devops_agent.py
default config). -/
structure Config where
  default_cloud : String := "aws"
  monitoring_interval : Nat := 60
  auto_scale : Bool := true
  auto_heal : Bool := true
deriving DecidableEq, Repr

/-- The threshold table from `DecisionEngine._load_thresholds`. -/
structure Thresholds where
  cpu_scale_up : ℚ
  cpu_scale_down : ℚ
  memory_scale_up : ℚ
  memory_scale_down : ℚ
  disk_usage : ℚ
  response_time : ℚ
  error_rate : ℚ
  network_usage : ℚ
deriving DecidableEq, Repr

/-- Default thresholds, as returned by `_load_thresholds`. -/
def defaultThresholds : Thresholds :=
  { cpu_scale_up := 80
    cpu_scale_down := 30
    memory_scale_up := 85
    memory_scale_down := 40
    disk_usage := 90
    response_time := 2
    error_rate := 5
    network_usage := 80 }

/-- The wall clock at a decision cycle: `datetime.now()` as integer seconds
plus its `.hour` field. -/
structure Clock where
  now : Int
  hour : Nat
deriving DecidableEq, Repr

/-- Mutable state of `DecisionEngine`: its config and rolling decision
history (`self.thresholds` is the fixed table loaded at construction). -/
structure DecisionEngineSt where
  config : Config
  decision_history : List Decision
  thresholds : Thresholds
deriving DecidableEq, Repr

/-- The CPU scale-up decision built in `_analyze_performance_decisions`
(numeric string interpolation in `reasoning` is elided). -/
def mkCpuScaleUp (now : Int) : Decision :=
  { action_type := .scale_up
    priority := .high
    target := "compute"
    parameters := [("metric", .s "cpu"), ("increase", .s "25%")]
    reasoning := "CPU usage exceeds threshold"
    timestamp := now
    expected_outcome := "Reduced CPU load and improved response times" }

/-- The CPU scale-down decision from `_analyze_performance_decisions`. -/
def mkCpuScaleDown (now : Int) : Decision :=
  { action_type := .scale_down
    priority := .low
    target := "compute"
    parameters := [("metric", .s "cpu"), ("decrease", .s "20%")]
    reasoning := "CPU usage is below threshold"
    timestamp := now
    expected_outcome := "Cost optimization while maintaining performance" }

/-- The memory scale-up decision from `_analyze_performance_decisions`. -/
def mkMemScaleUp (now : Int) : Decision :=
  { action_type := .scale_up
    priority := .high
    target := "memory"
    parameters := [("metric", .s "memory"), ("increase", .s "30%")]
    reasoning := "Memory usage exceeds threshold"
    timestamp := now
    expected_outcome := "Prevented out-of-memory errors" }

/-- The cache-optimization decision from `_analyze_performance_decisions`. -/
def mkCacheOptimize (now : Int) : Decision :=
  { action_type := .optimize_performance
    priority := .medium
    target := "cache"
    parameters := [("action", .s "increase_cache_size"), ("amount", .s "50%")]
    reasoning := "Response time exceeds threshold"
    timestamp := now
    expected_outcome := "Improved response times through better caching" }

/-- The response-time scale-up decision from `_analyze_performance_decisions`. -/
def mkRtScaleUp (now : Int) : Decision :=
  { action_type := .scale_up
    priority := .medium
    target := "compute"
    parameters := [("metric", .s "instances"), ("increase", .s "1")]
    reasoning := "Response time exceeds threshold"
    timestamp := now
    expected_outcome := "Improved response times through horizontal scaling" }

/-- The heal decision built per unhealthy service in
`_analyze_health_decisions`. -/
def mkHealDecision (service : String) (now : Int) : Decision :=
  { action_type := .heal_service
    priority := .critical
    target := service
    parameters := [("action", .s "restart"), ("max_attempts", .n 3)]
    reasoning := "Service " ++ service ++ " is unhealthy"
    timestamp := now
    expected_outcome := "Service restoration"
    rollback_plan := some [("action", .s "manual_intervention_required")] }

/-- The rollback decision from `_analyze_health_decisions`. -/
def mkRollbackDecision (now : Int) : Decision :=
  { action_type := .rollback
    priority := .critical
    target := "deployment"
    parameters := [("target", .s "previous_stable")]
    reasoning := "Error rate after recent deployment"
    timestamp := now
    expected_outcome := "Restored system stability" }

/-- The restart decision from `_analyze_health_decisions`. -/
def mkRestartDecision (now : Int) : Decision :=
  { action_type := .restart_service
    priority := .high
    target := "application"
    parameters := [("graceful", .b true), ("timeout", .s "30s")]
    reasoning := "High error rate detected"
    timestamp := now
    expected_outcome := "Cleared potential memory leaks or deadlocks" }

/-- The disk-cleanup decision from `_analyze_health_decisions`. -/
def mkDiskCleanup (now : Int) : Decision :=
  { action_type := .optimize_performance
    priority := .medium
    target := "storage"
    parameters := [("action", .s "cleanup_logs"), ("retention", .s "7d")]
    reasoning := "Disk usage is critical"
    timestamp := now
    expected_outcome := "Free disk space and prevent service interruption" }

/-- The firewall decision from `_analyze_security_decisions` for a
high-severity security alert. -/
def mkSecurityBlock (alertId alertMessage : String) (now : Int) : Decision :=
  { action_type := .update_security
    priority := .critical
    target := "firewall"
    parameters := [("action", .s "block_suspicious_ips"), ("alert_id", .s alertId)]
    reasoning := "High severity security alert: " ++ alertMessage
    timestamp := now
    expected_outcome := "Mitigated security threat" }

/-- The certificate-renewal decision from `_analyze_security_decisions`. -/
def mkSslRenew (now : Int) : Decision :=
  { action_type := .update_security
    priority := .high
    target := "certificates"
    parameters := [("action", .s "renew_certificates")]
    reasoning := "SSL certificate expiring soon"
    timestamp := now
    expected_outcome := "Maintained secure connections" }

/-- The off-hours scale-down decision from `_analyze_cost_decisions`. -/
def mkOffHoursScaleDown (now : Int) : Decision :=
  { action_type := .scale_down
    priority := .low
    target := "compute"
    parameters := [("schedule", .s "off_hours"), ("reduction", .s "50%")]
    reasoning := "Low usage during off-hours detected"
    timestamp := now
    expected_outcome := "Reduced infrastructure costs" }

/-- The unused-resources decision from `_analyze_cost_decisions`. -/
def mkUnusedOptimize (now : Int) : Decision :=
  { action_type := .optimize_performance
    priority := .low
    target := "resources"
    parameters := [("action", .s "identify_unused"), ("threshold", .s "1h")]
    reasoning := "Very low resource utilization detected"
    timestamp := now
    expected_outcome := "Cost savings through resource optimization" }

/-- Embeds `DecisionEngine._analyze_performance_decisions`: CPU scaling, memory
scaling, then response-time optimization, appended in source order. -/
def analyzePerformanceDecisions (th : Thresholds) (state : SystemState)
    (context : ProjectContext) (now : Int) : List Decision :=
  (if state.cpu_usage > th.cpu_scale_up then [mkCpuScaleUp now]
   else if state.cpu_usage < th.cpu_scale_down then [mkCpuScaleDown now]
   else [])
  ++ (if state.memory_usage > th.memory_scale_up then [mkMemScaleUp now] else [])
  ++ (if state.response_time > th.response_time then
        (if pgetBool context.performance_requirements "caching" false then
          [mkCacheOptimize now]
         else [mkRtScaleUp now])
      else [])

/-- The per-service heal loop of `_analyze_health_decisions`: one CRITICAL
heal decision per service whose health flag is false, in dict order. -/
def healDecisionList (serviceHealth : List (String × Bool)) (now : Int) :
    List Decision :=
  serviceHealth.filterMap
    (fun p => if p.2 then none else some (mkHealDecision p.1 now))

/-- Embeds `DecisionEngine._analyze_health_decisions`: heals, then the error-rate
branch (rollback iff a deployment happened less than an hour ago), then the
disk branch. -/
def analyzeHealthDecisions (th : Thresholds) (state : SystemState)
    (now : Int) : List Decision :=
  healDecisionList state.service_health now
  ++ (if state.error_rate > th.error_rate then
        (match state.last_deployment with
         | some t => if now - t < 3600 then [mkRollbackDecision now]
                     else [mkRestartDecision now]
         | none => [mkRestartDecision now])
      else [])
  ++ (if state.disk_usage > th.disk_usage then [mkDiskCleanup now] else [])

/-- Case-insensitive substring test, standing in for the Python
`pat in s.lower()` (the needle patterns in the source are lowercase). -/
def lowerContains (s pat : String) : Bool :=
  (s.toLower.splitOn pat).length != 1

/-- Embeds `DecisionEngine._analyze_security_decisions`: one CRITICAL firewall
decision per high-severity security alert, then one HIGH certificate decision
per alert whose message mentions ssl and expiry. -/
def analyzeSecurityDecisions (state : SystemState) (now : Int) :
    List Decision :=
  ((state.alerts.filter (fun a => decide (a.atype = "security"))).filterMap
     (fun a => if a.severity = "high"
               then some (mkSecurityBlock a.id a.message now) else none))
  ++ (state.alerts.filterMap
       (fun a => if lowerContains a.message "ssl" && lowerContains a.message "expir"
                 then some (mkSslRenew now) else none))

/-- Embeds `DecisionEngine._analyze_cost_decisions`: off-hours scale-down for
non-production contexts, then near-zero-utilization cleanup. -/
def analyzeCostDecisions (state : SystemState) (context : ProjectContext)
    (hour : Nat) (now : Int) : List Decision :=
  (if (hour < 8 ∨ hour > 18) ∧ context.project_type ≠ "production" then
     (if state.cpu_usage < 20 ∧ state.memory_usage < 30
      then [mkOffHoursScaleDown now] else [])
   else [])
  ++ (if state.cpu_usage < 5 ∧ state.memory_usage < 10
      then [mkUnusedOptimize now] else [])

/-- The concatenation of the four analyzer outputs, in the order
`make_decisions` extends its local list: performance, health, security,
cost. -/
def generatedDecisions (eng : DecisionEngineSt) (state : SystemState)
    (context : ProjectContext) (clk : Clock) : List Decision :=
  analyzePerformanceDecisions eng.thresholds state context clk.now
  ++ analyzeHealthDecisions eng.thresholds state clk.now
  ++ analyzeSecurityDecisions state clk.now
  ++ analyzeCostDecisions state context clk.hour clk.now

/-- One insertion step of a stable descending sort on priority: the new
element is placed before the first element whose priority is not larger,
which is how Cthe Python stable `list.sort(key=..., reverse=True)` orders
equal keys. -/
def insertDesc (d : Decision) : List Decision → List Decision
  | [] => [d]
  | e :: es =>
    if d.priority.val < e.priority.val then e :: insertDesc d es
    else d :: e :: es

/-- Stable sort by descending priority, the semantics of
`decisions.sort(key=lambda d: d.priority.value, reverse=True)`. -/
def pySortDesc : List Decision → List Decision
  | [] => []
  | d :: ds => insertDesc d (pySortDesc ds)

/-- Embeds `DecisionEngine.make_decisions`: run the four analyzers, sort the
concatenated output by descending priority (stable), append everything to
the decision history, prune the history to 24 hours, and return the first
five decisions together with the new history. -/
def makeDecisions (eng : DecisionEngineSt) (state : SystemState)
    (context : ProjectContext) (clk : Clock) :
    List Decision × List Decision :=
  let decisions := pySortDesc (generatedDecisions eng state context clk)
  let history := (eng.decision_history ++ decisions).filter
    (fun d => decide (clk.now - 86400 < d.timestamp))
  (decisions.take 5, history)

/-- One entry of the list returned by `get_recent_decisions`. -/
structure RecentDecisionRec where
  action : String
  priority : String
  target : String
  reasoning : String
  timestamp : Int
deriving DecidableEq, Repr

/-- Embeds `DecisionEngine.get_recent_decisions`: project the decisions of the last
hour of the history into report records. -/
def getRecentDecisions (history : List Decision) (now : Int) :
    List RecentDecisionRec :=
  (history.filter (fun d => decide (now - 3600 < d.timestamp))).map
    (fun d =>
      { action := d.action_type.value
        priority := d.priority.pyName
        target := d.target
        reasoning := d.reasoning
        timestamp := d.timestamp })

/-- The `ExecutionResult` dataclass from action_executor.py (details
restricted to the scalar entries the source stores; `execution_time` is the
wall-clock duration, not observable in the embedding and kept at 0). -/
structure ExecutionResult where
  success : Bool
  message : String
  details : Params
  execution_time : ℚ
  timestamp : Int
deriving DecidableEq, Repr

/-- The source of simulated randomness of action_executor.py: draw `i` gives
the success of the `i`-th command execution / test / deployment simulation
(`random.random() > p` in the source). -/
abbrev Oracle := Nat → Bool

/-- Executor-side running state: the next oracle index and the shell commands
issued so far (commands are the executor externally visible side
effects). -/
structure ExecSt where
  idx : Nat
  cmds : List String
deriving DecidableEq, Repr

/-- Embeds `ActionExecutor._run_command`: consume one oracle draw, record the
command, and report success with the corresponding output line. -/
def runCommand (o : Oracle) (st : ExecSt) (cmd : String) :
    Bool × String × ExecSt :=
  let ok := o st.idx
  (ok,
   (if ok then "Command executed successfully: " else "Command failed: ") ++ cmd,
   { idx := st.idx + 1, cmds := st.cmds ++ [cmd] })

/-- Embeds `ActionExecutor._aws_scale_up`. -/
def awsScaleUp (o : Oracle) (now : Int) (target : String) (parameters : Params)
    (st : ExecSt) : ExecutionResult × ExecSt :=
  let metric := pgetStr parameters "metric" "instances"
  let increase := pgetStr parameters "increase" "1"
  let cmd :=
    if metric = "instances" then
      "aws autoscaling set-desired-capacity --auto-scaling-group-name "
        ++ target ++ " --desired-capacity +" ++ increase
    else if metric = "cpu" then
      "aws ec2 modify-instance-attribute --instance-id " ++ target
        ++ " --instance-type t3.large"
    else
      "aws autoscaling update-auto-scaling-group --auto-scaling-group-name " ++ target
  let r := runCommand o st cmd
  ({ success := r.1
     message := "AWS scale up " ++ (if r.1 then "completed" else "failed")
     details := [("target", .s target), ("metric", .s metric),
                 ("increase", .s increase), ("output", .s r.2.1)]
     execution_time := 0
     timestamp := now }, r.2.2)

/-- Embeds `ActionExecutor._aws_scale_down`. -/
def awsScaleDown (o : Oracle) (now : Int) (target : String) (parameters : Params)
    (st : ExecSt) : ExecutionResult × ExecSt :=
  let metric := pgetStr parameters "metric" "instances"
  let decrease := pgetStr parameters "decrease" "1"
  let cmd :=
    if metric = "instances" then
      "aws autoscaling set-desired-capacity --auto-scaling-group-name "
        ++ target ++ " --desired-capacity -" ++ decrease
    else if metric = "cpu" then
      "aws ec2 modify-instance-attribute --instance-id " ++ target
        ++ " --instance-type t3.small"
    else
      "aws autoscaling update-auto-scaling-group --auto-scaling-group-name " ++ target
  let r := runCommand o st cmd
  ({ success := r.1
     message := "AWS scale down " ++ (if r.1 then "completed" else "failed")
     details := [("target", .s target), ("metric", .s metric),
                 ("decrease", .s decrease), ("output", .s r.2.1)]
     execution_time := 0
     timestamp := now }, r.2.2)

/-- Embeds `ActionExecutor._gcp_scale_up` (the azure variant differs only in the
command text and message and is folded into the same shape). -/
def gcpScaleUp (o : Oracle) (now : Int) (target : String) (parameters : Params)
    (st : ExecSt) : ExecutionResult × ExecSt :=
  let increase := pgetStr parameters "increase" "1"
  let cmd := "gcloud compute instance-groups managed resize " ++ target
    ++ " --size +" ++ increase
  let r := runCommand o st cmd
  ({ success := r.1
     message := "GCP scale up " ++ (if r.1 then "completed" else "failed")
     details := [("target", .s target), ("output", .s r.2.1)]
     execution_time := 0
     timestamp := now }, r.2.2)

/-- Embeds `ActionExecutor._gcp_scale_down`. -/
def gcpScaleDown (o : Oracle) (now : Int) (target : String) (parameters : Params)
    (st : ExecSt) : ExecutionResult × ExecSt :=
  let decrease := pgetStr parameters "decrease" "1"
  let cmd := "gcloud compute instance-groups managed resize " ++ target
    ++ " --size -" ++ decrease
  let r := runCommand o st cmd
  ({ success := r.1
     message := "GCP scale down " ++ (if r.1 then "completed" else "failed")
     details := [("target", .s target), ("output", .s r.2.1)]
     execution_time := 0
     timestamp := now }, r.2.2)

/-- Embeds `ActionExecutor._azure_scale_up`. -/
def azureScaleUp (o : Oracle) (now : Int) (target : String) (parameters : Params)
    (st : ExecSt) : ExecutionResult × ExecSt :=
  let increase := pgetStr parameters "increase" "1"
  let cmd := "az vmss scale --name " ++ target ++ " --new-capacity +" ++ increase
  let r := runCommand o st cmd
  ({ success := r.1
     message := "Azure scale up " ++ (if r.1 then "completed" else "failed")
     details := [("target", .s target), ("output", .s r.2.1)]
     execution_time := 0
     timestamp := now }, r.2.2)

/-- Embeds `ActionExecutor._azure_scale_down`. -/
def azureScaleDown (o : Oracle) (now : Int) (target : String) (parameters : Params)
    (st : ExecSt) : ExecutionResult × ExecSt :=
  let decrease := pgetStr parameters "decrease" "1"
  let cmd := "az vmss scale --name " ++ target ++ " --new-capacity -" ++ decrease
  let r := runCommand o st cmd
  ({ success := r.1
     message := "Azure scale down " ++ (if r.1 then "completed" else "failed")
     details := [("target", .s target), ("output", .s r.2.1)]
     execution_time := 0
     timestamp := now }, r.2.2)

/-- Embeds `ActionExecutor._generic_scale_up`: simulation only, always succeeds,
issues no command. -/
def genericScaleUp (now : Int) (target : String) (st : ExecSt) :
    ExecutionResult × ExecSt :=
  ({ success := true
     message := "Scaled up " ++ target ++ " successfully"
     details := [("target", .s target)]
     execution_time := 0
     timestamp := now }, st)

/-- Embeds `ActionExecutor._generic_scale_down`. -/
def genericScaleDown (now : Int) (target : String) (st : ExecSt) :
    ExecutionResult × ExecSt :=
  ({ success := true
     message := "Scaled down " ++ target ++ " successfully"
     details := [("target", .s target)]
     execution_time := 0
     timestamp := now }, st)

/-- Embeds `ActionExecutor._execute_scale_up`: dispatch on the configured cloud
provider. -/
def executeScaleUp (cloud : String) (d : Decision) (o : Oracle) (now : Int)
    (st : ExecSt) : ExecutionResult × ExecSt :=
  if cloud = "aws" then awsScaleUp o now d.target d.parameters st
  else if cloud = "gcp" then gcpScaleUp o now d.target d.parameters st
  else if cloud = "azure" then azureScaleUp o now d.target d.parameters st
  else genericScaleUp now d.target st

/-- Embeds `ActionExecutor._execute_scale_down`. -/
def executeScaleDown (cloud : String) (d : Decision) (o : Oracle) (now : Int)
    (st : ExecSt) : ExecutionResult × ExecSt :=
  if cloud = "aws" then awsScaleDown o now d.target d.parameters st
  else if cloud = "gcp" then gcpScaleDown o now d.target d.parameters st
  else if cloud = "azure" then azureScaleDown o now d.target d.parameters st
  else genericScaleDown now d.target st

/-- Embeds `ActionExecutor._execute_restart_service`. -/
def executeRestartService (d : Decision) (o : Oracle) (now : Int)
    (st : ExecSt) : ExecutionResult × ExecSt :=
  let graceful := pgetBool d.parameters "graceful" true
  let cmd := (if graceful then "systemctl reload " else "systemctl restart ")
    ++ d.target
  let r := runCommand o st cmd
  ({ success := r.1
     message := "Service restart " ++ (if r.1 then "completed" else "failed")
     details := [("target", .s d.target), ("graceful", .b graceful),
                 ("output", .s r.2.1)]
     execution_time := 0
     timestamp := now }, r.2.2)

/-- Embeds `ActionExecutor._execute_rollback`: simulation only, always succeeds. -/
def executeRollback (d : Decision) (now : Int) (st : ExecSt) :
    ExecutionResult × ExecSt :=
  let target := pgetStr d.parameters "target" "previous_stable"
  ({ success := true
     message := "Rollback completed successfully"
     details := [("target", .s target), ("rollback_version", .s "v1.2.3")]
     execution_time := 0
     timestamp := now }, st)

/-- The success result of `_execute_heal_service`, recording how many
attempts were used. -/
def healOkResult (now : Int) (target action : String) (attempts : Nat) :
    ExecutionResult :=
  { success := true
    message := "Service " ++ target ++ " healed successfully"
    details := [("target", .s target), ("action", .s action),
                ("attempts", .n attempts)]
    execution_time := 0
    timestamp := now }

/-- The failure result `_execute_heal_service` returns after exhausting all
attempts. -/
def healFailResult (now : Int) (target action : String) (maxAttempts : Nat) :
    ExecutionResult :=
  { success := false
    message := "Failed to heal service " ++ target
    details := [("target", .s target), ("action", .s action),
                ("attempts", .n maxAttempts)]
    execution_time := 0
    timestamp := now }

/-- The `for attempt in range(max_attempts)` loop of
`_execute_heal_service`: `remaining` counts the iterations left and
`attempt` the iterations done; when the action is "restart", each iteration
runs one restart command and returns immediately on success. -/
def healLoop (o : Oracle) (now : Int) (target action : String)
    (maxAttempts : Nat) : Nat → Nat → ExecSt → ExecutionResult × ExecSt
  | 0, _, st => (healFailResult now target action maxAttempts, st)
  | remaining + 1, attempt, st =>
    if action = "restart" then
      let r := runCommand o st ("systemctl restart " ++ target)
      if r.1 then (healOkResult now target action (attempt + 1), r.2.2)
      else healLoop o now target action maxAttempts remaining (attempt + 1) r.2.2
    else healLoop o now target action maxAttempts remaining (attempt + 1) st

/-- Embeds `ActionExecutor._execute_heal_service`. -/
def executeHealService (d : Decision) (o : Oracle) (now : Int) (st : ExecSt) :
    ExecutionResult × ExecSt :=
  let action := pgetStr d.parameters "action" "restart"
  let maxAttempts := pgetNat d.parameters "max_attempts" 3
  healLoop o now d.target action maxAttempts maxAttempts 0 st

/-- Embeds `ActionExecutor._execute_optimize_performance`. -/
def executeOptimizePerformance (d : Decision) (o : Oracle) (now : Int)
    (st : ExecSt) : ExecutionResult × ExecSt :=
  let action := pgetStr d.parameters "action" ""
  let r :=
    if action = "increase_cache_size" then
      let amount := pgetStr d.parameters "amount" "50%"
      let c := runCommand o st ("redis-cli CONFIG SET maxmemory +" ++ amount)
      (c.1, c.2.2)
    else if action = "cleanup_logs" then
      let c := runCommand o st "find /var/log -name log files -mtime +retention -delete"
      (c.1, c.2.2)
    else if action = "identify_unused" then
      let c := runCommand o st "docker system prune -f"
      (c.1, c.2.2)
    else (true, st)
  ({ success := r.1
     message := "Performance optimization "
       ++ (if r.1 then "completed" else "failed")
     details := [("target", .s d.target), ("action", .s action)]
     execution_time := 0
     timestamp := now }, r.2)

/-- Embeds `ActionExecutor._execute_update_security`. -/
def executeUpdateSecurity (d : Decision) (o : Oracle) (now : Int)
    (st : ExecSt) : ExecutionResult × ExecSt :=
  let action := pgetStr d.parameters "action" ""
  let r :=
    if action = "block_suspicious_ips" then
      let c := runCommand o st "iptables -A INPUT -s suspicious_ip -j DROP"
      (c.1, c.2.2)
    else if action = "renew_certificates" then
      let c := runCommand o st "certbot renew --quiet"
      (c.1, c.2.2)
    else (true, st)
  ({ success := r.1
     message := "Security update " ++ (if r.1 then "completed" else "failed")
     details := [("target", .s d.target), ("action", .s action)]
     execution_time := 0
     timestamp := now }, r.2)

/-- Embeds `ActionExecutor._execute_update_config`: simulation only, always
succeeds. -/
def executeUpdateConfig (d : Decision) (now : Int) (st : ExecSt) :
    ExecutionResult × ExecSt :=
  ({ success := true
     message := "Configuration updated for " ++ d.target
     details := [("target", .s d.target)]
     execution_time := 0
     timestamp := now }, st)

/-- The failure result the `else` branch of `execute_action` builds for an
action type with no handler. -/
def unknownActionResult (d : Decision) (now : Int) : ExecutionResult :=
  { success := false
    message := "Unknown action type: " ++ d.action_type.value
    details := []
    execution_time := 0
    timestamp := now }

/-- The `try`-body of `ActionExecutor.execute_action`: dispatch on the
action type.  `deploy_update` and `create_alert` have no handler and fall to
the `else` branch.  The embedded handlers cannot throw, so every branch is
`Except.ok`; the `Except` layer records the try/except structure of the
source. -/
def executeActionTry (d : Decision) (cloud : String) (o : Oracle) (now : Int)
    (st : ExecSt) : Except String (ExecutionResult × ExecSt) :=
  match d.action_type with
  | .scale_up => .ok (executeScaleUp cloud d o now st)
  | .scale_down => .ok (executeScaleDown cloud d o now st)
  | .restart_service => .ok (executeRestartService d o now st)
  | .rollback => .ok (executeRollback d now st)
  | .heal_service => .ok (executeHealService d o now st)
  | .optimize_performance => .ok (executeOptimizePerformance d o now st)
  | .update_security => .ok (executeUpdateSecurity d o now st)
  | .update_config => .ok (executeUpdateConfig d now st)
  | .deploy_update => .ok (unknownActionResult d now, st)
  | .create_alert => .ok (unknownActionResult d now, st)

/-- The `except` clause of `execute_action`: a raised error becomes a
`success=false` result and no further effects happen. -/
def catchToResult (d : Decision) (now : Int) (st : ExecSt) :
    Except String (ExecutionResult × ExecSt) → ExecutionResult × ExecSt
  | .ok r => r
  | .error e =>
    ({ success := false
       message := "Action execution failed: " ++ e
       details := [("error", .s e), ("action_type", .s d.action_type.value)]
       execution_time := 0
       timestamp := now }, st)

/-- Embeds `ActionExecutor.execute_action`: dispatch wrapped in the exception
catch. -/
def executeAction (d : Decision) (cloud : String) (o : Oracle) (now : Int)
    (st : ExecSt) : ExecutionResult × ExecSt :=
  catchToResult d now st (executeActionTry d cloud o now st)

/-- One CI/CD pipeline stage dictionary (keys name, type, config). -/
structure Stage where
  name : String
  stype : String
  cfg : Params
deriving DecidableEq, Repr

/-- The fail-fast command loop shared by `_build_nodejs` and
`_build_python`: returns the first failing command, if any. -/
def runBuildCommands (o : Oracle) : List String → ExecSt →
    Option String × ExecSt
  | [], st => (none, st)
  | c :: cs, st =>
    let r := runCommand o st c
    if r.1 then runBuildCommands o cs r.2.2 else (some c, r.2.2)

/-- Embeds `ActionExecutor._execute_build_stage` with its per-runtime builders:
node/python run install then build commands fail-fast, java and docker run a
single build command, an unsupported runtime is a failure. -/
def executeBuildStage (cfg : Params) (o : Oracle) (now : Int) (st : ExecSt) :
    ExecutionResult × ExecSt :=
  let runtime := pgetStr cfg "runtime" "docker"
  if runtime = "nodejs" ∨ runtime = "python" then
    let cmds :=
      if runtime = "nodejs" then
        [pgetStr cfg "install_cmd" "npm ci", pgetStr cfg "build_cmd" "npm run build"]
      else
        [pgetStr cfg "install_cmd" "pip install -r requirements.txt",
         pgetStr cfg "build_cmd" "python setup.py build"]
    let r := runBuildCommands o cmds st
    (match r.1 with
     | some c =>
       ({ success := false, message := "Build failed: " ++ c,
          details := [("command", .s c)], execution_time := 0,
          timestamp := now }, r.2)
     | none =>
       ({ success := true, message := runtime ++ " build completed successfully",
          details := [("runtime", .s runtime)], execution_time := 0,
          timestamp := now }, r.2))
  else if runtime = "java" then
    let cmd := pgetStr cfg "build_cmd" "mvn package"
    let r := runCommand o st cmd
    ({ success := r.1
       message := if r.1 then "Java build completed successfully"
                  else "Java build failed: " ++ cmd
       details := [("runtime", .s "java")], execution_time := 0,
       timestamp := now }, r.2.2)
  else if runtime = "docker" then
    let cmd := "docker build -f " ++ pgetStr cfg "dockerfile" "Dockerfile" ++ " -t app ."
    let r := runCommand o st cmd
    ({ success := r.1
       message := if r.1 then "Docker build completed successfully"
                  else "Docker build failed: " ++ cmd
       details := [("runtime", .s "docker")], execution_time := 0,
       timestamp := now }, r.2.2)
  else
    ({ success := false, message := "Unsupported runtime: " ++ runtime,
       details := [], execution_time := 0, timestamp := now }, st)

/-- Embeds `ActionExecutor._execute_pipeline_stage`: dispatch on the stage type.
The simulated test / security-scan / deploy outcomes each consume one oracle
draw (the source draws `random.random()` / `random.randint` once per
stage). -/
def executePipelineStage (s : Stage) (o : Oracle) (now : Int) (st : ExecSt) :
    ExecutionResult × ExecSt :=
  if s.stype = "source_control" then
    ({ success := true, message := "Source code checked out successfully",
       details := [("branch", .s (pgetStr s.cfg "branch" "main"))],
       execution_time := 0, timestamp := now }, st)
  else if s.stype = "build" then
    executeBuildStage s.cfg o now st
  else if s.stype = "test" then
    let ok := o st.idx
    ({ success := ok
       message := if ok then "Tests passed" else "Tests failed"
       details := [("test_type", .s (pgetStr s.cfg "type" "unit"))]
       execution_time := 0, timestamp := now },
     { idx := st.idx + 1, cmds := st.cmds })
  else if s.stype = "security" then
    let ok := o st.idx
    ({ success := ok
       message := if ok then "Security scans passed - no vulnerabilities found"
                  else "Security scans found vulnerabilities"
       details := []
       execution_time := 0, timestamp := now },
     { idx := st.idx + 1, cmds := st.cmds })
  else if s.stype = "deploy" then
    let ok := o st.idx
    let environment := pgetStr s.cfg "environment" "staging"
    ({ success := ok
       message := "Deployment to " ++ environment
         ++ (if ok then " successful" else " failed")
       details := [("environment", .s environment)]
       execution_time := 0, timestamp := now },
     { idx := st.idx + 1, cmds := st.cmds })
  else
    ({ success := false, message := "Unknown stage type: " ++ s.stype,
       details := [], execution_time := 0, timestamp := now }, st)

/-- The stage loop of `ActionExecutor.execute_deployment`: run stages in
order, append each result, flip `overall_success` to false on a failure and
stop — unless the failing stage is named "deploy_production", which is
allowed to fail without aborting. -/
def deployLoop (o : Oracle) (now : Int) : List Stage → ExecSt → Bool →
    List ExecutionResult → Bool × List ExecutionResult × ExecSt
  | [], st, overall, acc => (overall, acc, st)
  | s :: rest, st, overall, acc =>
    let r := executePipelineStage s o now st
    if r.1.success then deployLoop o now rest r.2 overall (acc ++ [r.1])
    else if s.name = "deploy_production" then
      deployLoop o now rest r.2 false (acc ++ [r.1])
    else (false, acc ++ [r.1], r.2)

/-- The result dictionary of `execute_deployment` (bookkeeping fields such
as deployment_id elided). -/
structure DeployResults where
  overall_success : Bool
  stage_results : List ExecutionResult
deriving DecidableEq, Repr

/-- Embeds `ActionExecutor.execute_deployment`. -/
def executeDeployment (stages : List Stage) (o : Oracle) (now : Int) :
    DeployResults :=
  let r := deployLoop o now stages { idx := 0, cmds := [] } true []
  { overall_success := r.1, stage_results := r.2.1 }

/-- The `learned_thresholds` dictionary of the Learning Module: per-key
rolling lists of state values (Python dict, insertion ordered). -/
abbrev ThresholdDict := List (String × List ℚ)

/-- Dict lookup with the Python KeyError-free access pattern folded to a
default: the list under `k`, or `[]` when `k` is absent. -/
def tdGet : ThresholdDict → String → List ℚ
  | [], _ => []
  | p :: rest, k => if p.1 = k then p.2 else tdGet rest k

/-- Embeds `k in d` for the threshold dictionary. -/
def tdMem : ThresholdDict → String → Bool
  | [], _ => false
  | p :: rest, k => if p.1 = k then true else tdMem rest k

/-- Embeds `d[k] = v`: update the existing entry in place, else append (Python dict
assignment semantics). -/
def tdSet : ThresholdDict → String → List ℚ → ThresholdDict
  | [], k, v => [(k, v)]
  | p :: rest, k, v =>
    if p.1 = k then (p.1, v) :: rest else p :: tdSet rest k v

/-- The inputs of `LearningModule._learn_optimal_thresholds` taken from an
`ActionOutcome`: the decision action type, the triggering before-state CPU
value, and `outcome_metrics["overall_effectiveness"]`. -/
structure OutcomeRec where
  action_type : String
  before_cpu : ℚ
  effectiveness : ℚ
deriving DecidableEq, Repr

/-- Embeds `LearningModule._learn_optimal_thresholds`: for scaling actions, ensure
the per-action buffer exists, and append the before-state CPU value only
when effectiveness exceeds 0.5, trimming to the 50 most recent entries. -/
def learnOptimalThresholds (lt : ThresholdDict) (outcome : OutcomeRec) :
    ThresholdDict :=
  if outcome.action_type = "scale_up" ∨ outcome.action_type = "scale_down" then
    let key := outcome.action_type ++ "_cpu_threshold"
    let lt1 := if tdMem lt key then lt else tdSet lt key []
    if outcome.effectiveness > 1/2 then
      let appended := tdGet lt1 key ++ [outcome.before_cpu]
      let trimmed :=
        if 50 < appended.length then appended.drop (appended.length - 50)
        else appended
      tdSet lt1 key trimmed
    else lt1
  else lt

/-- One time-series sample of monitoring_system.py `MetricData`. -/
structure MetricData where
  timestamp : Int
  value : ℚ
  metric_name : String
deriving DecidableEq, Repr

/-- The mutable state of `MonitoringSystem` that `get_status` and the alert
pass read. -/
structure MonitoringSt where
  is_monitoring : Bool
  metrics_history : List MetricData
  current_alerts : List Alert
  monitoring_interval : Nat
deriving DecidableEq, Repr

/-- The dictionary returned by `MonitoringSystem.get_status`.  Its
`last_collection` field is `datetime.now().isoformat()` at the moment of the
call. -/
structure MonStatus where
  is_monitoring : Bool
  metrics_collected : Nat
  active_alerts : Nat
  monitoring_interval : Nat
  last_collection : Int
deriving DecidableEq, Repr

/-- Embeds `MonitoringSystem.get_status`. -/
def getStatus (m : MonitoringSt) (now : Int) : MonStatus :=
  { is_monitoring := m.is_monitoring
    metrics_collected := m.metrics_history.length
    active_alerts := m.current_alerts.length
    monitoring_interval := m.monitoring_interval
    last_collection := now }

/-- The new alerts one `_check_alerts` iteration generates from the sampled
state; the two simulated security events are explicit flags standing for
their `random.random()` draws. -/
def newAlertsFrom (state : SystemState) (secFlag sslFlag : Bool) (now : Int) :
    List Alert :=
  (if state.cpu_usage > 90 then
     [{ id := "cpu-alert-" ++ toString now, atype := "performance",
        severity := "high", message := "High CPU usage", timestamp := now }]
   else [])
  ++ (if state.memory_usage > 90 then
        [{ id := "memory-alert-" ++ toString now, atype := "performance",
           severity := "high", message := "High memory usage", timestamp := now }]
      else [])
  ++ (if state.disk_usage > 85 then
        [{ id := "disk-alert-" ++ toString now, atype := "storage",
           severity := "medium", message := "High disk usage", timestamp := now }]
      else [])
  ++ (if state.response_time > 3 then
        [{ id := "response-alert-" ++ toString now, atype := "performance",
           severity := "medium", message := "Slow response time", timestamp := now }]
      else [])
  ++ (if state.error_rate > 5 then
        [{ id := "error-alert-" ++ toString now, atype := "error",
           severity := "high", message := "High error rate", timestamp := now }]
      else [])
  ++ (if secFlag then
        [{ id := "security-alert-" ++ toString now, atype := "security",
           severity := "high", message := "Suspicious login attempts detected",
           timestamp := now }]
      else [])
  ++ (if sslFlag then
        [{ id := "ssl-alert-" ++ toString now, atype := "security",
           severity := "medium", message := "SSL certificate expiring in 7 days",
           timestamp := now }]
      else [])

/-- One `_check_alerts` pass over the alert list: extend with the newly
generated alerts, then prune every alert older than one hour. -/
def checkAlertsPass (state : SystemState) (alerts : List Alert)
    (secFlag sslFlag : Bool) (now : Int) : List Alert :=
  (alerts ++ newAlertsFrom state secFlag sslFlag now).filter
    (fun a => decide (now - 3600 < a.timestamp))

/-- The sub-list of decisions at priority value `v`, in original order. -/
def prBucket (v : Nat) (l : List Decision) : List Decision :=
  l.filter (fun d => decide (d.priority.val = v))

theorem priority_val_le_four (p : Priority) : p.val ≤ 4 := by
  cases p <;> simp [Priority.val]

theorem mem_prBucket_val {v : Nat} {l : List Decision} {d : Decision}
    (h : d ∈ prBucket v l) : d.priority.val = v := by
  have h2 := (List.mem_filter.mp h).2
  simpa using h2

theorem insertDesc_perm (d : Decision) (l : List Decision) :
    List.Perm (insertDesc d l) (d :: l) := by
  induction l with
  | nil => exact List.Perm.refl _
  | cons e es ih =>
    by_cases h : d.priority.val < e.priority.val
    · simp only [insertDesc, if_pos h]
      exact (ih.cons e).trans (List.Perm.swap d e es)
    · simp only [insertDesc, if_neg h]
      exact List.Perm.refl _

theorem pySortDesc_perm (l : List Decision) :
    List.Perm (pySortDesc l) l := by
  induction l with
  | nil => exact List.Perm.refl _
  | cons d ds ih =>
    exact (insertDesc_perm d (pySortDesc ds)).trans (ih.cons d)

theorem insertDesc_append (d : Decision) (A B : List Decision)
    (hA : ∀ a ∈ A, d.priority.val < a.priority.val)
    (hB : ∀ b ∈ B, b.priority.val ≤ d.priority.val) :
    insertDesc d (A ++ B) = A ++ d :: B := by
  induction A with
  | nil =>
    cases B with
    | nil => simp [insertDesc]
    | cons b bs =>
      have hb : ¬ d.priority.val < b.priority.val :=
        not_lt.mpr (hB b (List.mem_cons_self b bs))
      simp [insertDesc, if_neg hb]
  | cons a as ih =>
    have ha : d.priority.val < a.priority.val := hA a (List.mem_cons_self a as)
    have ih2 := ih (fun x hx => hA x (List.mem_cons_of_mem a hx))
    simp [insertDesc, if_pos ha, ih2]

theorem prBucket_cons_eq {v : Nat} {d : Decision} (l : List Decision)
    (h : d.priority.val = v) : prBucket v (d :: l) = d :: prBucket v l := by
  simp [prBucket, List.filter_cons, h]

theorem prBucket_cons_ne {v : Nat} {d : Decision} (l : List Decision)
    (h : d.priority.val ≠ v) : prBucket v (d :: l) = prBucket v l := by
  simp [prBucket, List.filter_cons, h]

/-- Stable descending sort groups the list into the four priority buckets,
each bucket keeping the original (analyzer) order. -/
theorem pySortDesc_eq_buckets (l : List Decision) :
    pySortDesc l = prBucket 4 l ++ prBucket 3 l ++ prBucket 2 l ++ prBucket 1 l := by
  induction l with
  | nil => rfl
  | cons d ds ih =>
    have hle4 : ∀ b ∈ prBucket 4 ds, b.priority.val ≤ 4 :=
      fun b hb => le_of_eq (mem_prBucket_val hb)
    have hle3 : ∀ b ∈ prBucket 3 ds, b.priority.val ≤ 3 :=
      fun b hb => le_of_eq (mem_prBucket_val hb)
    have hle2 : ∀ b ∈ prBucket 2 ds, b.priority.val ≤ 2 :=
      fun b hb => le_of_eq (mem_prBucket_val hb)
    have hle1 : ∀ b ∈ prBucket 1 ds, b.priority.val ≤ 1 :=
      fun b hb => le_of_eq (mem_prBucket_val hb)
    have heq4 : ∀ b ∈ prBucket 4 ds, b.priority.val = 4 :=
      fun b hb => mem_prBucket_val hb
    have heq3 : ∀ b ∈ prBucket 3 ds, b.priority.val = 3 :=
      fun b hb => mem_prBucket_val hb
    show insertDesc d (pySortDesc ds) = _
    rw [ih]
    cases hp : d.priority with
    | critical =>
      have hv : d.priority.val = 4 := by rw [hp]; rfl
      have : insertDesc d
          (prBucket 4 ds ++ prBucket 3 ds ++ prBucket 2 ds ++ prBucket 1 ds)
          = [] ++ d ::
            (prBucket 4 ds ++ prBucket 3 ds ++ prBucket 2 ds ++ prBucket 1 ds) := by
        apply insertDesc_append d [] _ (by simp)
        intro b hb
        rw [hv]
        exact le_trans (priority_val_le_four b.priority) (le_refl 4)
      rw [this, prBucket_cons_eq ds hv,
        prBucket_cons_ne (v := 3) ds (by rw [hv]; omega),
        prBucket_cons_ne (v := 2) ds (by rw [hv]; omega),
        prBucket_cons_ne (v := 1) ds (by rw [hv]; omega)]
      simp
    | high =>
      have hv : d.priority.val = 3 := by rw [hp]; rfl
      have e : prBucket 4 ds ++ prBucket 3 ds ++ prBucket 2 ds ++ prBucket 1 ds
          = prBucket 4 ds ++ (prBucket 3 ds ++ prBucket 2 ds ++ prBucket 1 ds) := by
        simp [List.append_assoc]
      rw [e]
      have key : insertDesc d
          (prBucket 4 ds ++ (prBucket 3 ds ++ prBucket 2 ds ++ prBucket 1 ds))
          = prBucket 4 ds ++ d ::
            (prBucket 3 ds ++ prBucket 2 ds ++ prBucket 1 ds) := by
        apply insertDesc_append
        · intro a ha; rw [hv, heq4 a ha]; omega
        · intro b hb
          rw [hv]
          rcases List.mem_append.mp hb with h32 | h1
          · rcases List.mem_append.mp h32 with h3 | h2
            · exact le_of_eq (mem_prBucket_val h3)
            · rw [mem_prBucket_val h2]; omega
          · rw [mem_prBucket_val h1]; omega
      rw [key, prBucket_cons_eq ds hv,
        prBucket_cons_ne (v := 4) ds (by rw [hv]; omega),
        prBucket_cons_ne (v := 2) ds (by rw [hv]; omega),
        prBucket_cons_ne (v := 1) ds (by rw [hv]; omega)]
      simp
    | medium =>
      have hv : d.priority.val = 2 := by rw [hp]; rfl
      have e : prBucket 4 ds ++ prBucket 3 ds ++ prBucket 2 ds ++ prBucket 1 ds
          = (prBucket 4 ds ++ prBucket 3 ds) ++ (prBucket 2 ds ++ prBucket 1 ds) := by
        simp [List.append_assoc]
      rw [e]
      have key : insertDesc d
          ((prBucket 4 ds ++ prBucket 3 ds) ++ (prBucket 2 ds ++ prBucket 1 ds))
          = (prBucket 4 ds ++ prBucket 3 ds) ++ d ::
            (prBucket 2 ds ++ prBucket 1 ds) := by
        apply insertDesc_append
        · intro a ha
          rcases List.mem_append.mp ha with h4 | h3
          · rw [hv, heq4 a h4]; omega
          · rw [hv, heq3 a h3]; omega
        · intro b hb
          rcases List.mem_append.mp hb with h2 | h1
          · rw [hv, mem_prBucket_val h2]
          · rw [hv, mem_prBucket_val h1]; omega
      rw [key, prBucket_cons_eq ds hv,
        prBucket_cons_ne (v := 4) ds (by rw [hv]; omega),
        prBucket_cons_ne (v := 3) ds (by rw [hv]; omega),
        prBucket_cons_ne (v := 1) ds (by rw [hv]; omega)]
      simp
    | low =>
      have hv : d.priority.val = 1 := by rw [hp]; rfl
      have key : insertDesc d
          (prBucket 4 ds ++ prBucket 3 ds ++ prBucket 2 ds ++ prBucket 1 ds)
          = (prBucket 4 ds ++ prBucket 3 ds ++ prBucket 2 ds) ++ d ::
            prBucket 1 ds := by
        apply insertDesc_append
        · intro a ha
          rcases List.mem_append.mp ha with h43 | h2
          · rcases List.mem_append.mp h43 with h4 | h3
            · rw [hv, heq4 a h4]; omega
            · rw [hv, heq3 a h3]; omega
          · rw [hv, mem_prBucket_val h2]; omega
        · intro b hb
          rw [hv, mem_prBucket_val hb]
      rw [key, prBucket_cons_eq ds hv,
        prBucket_cons_ne (v := 4) ds (by rw [hv]; omega),
        prBucket_cons_ne (v := 3) ds (by rw [hv]; omega),
        prBucket_cons_ne (v := 2) ds (by rw [hv]; omega)]

theorem pySortDesc_pairwise (l : List Decision) :
    (pySortDesc l).Pairwise (fun a b => b.priority.val ≤ a.priority.val) := by
  rw [pySortDesc_eq_buckets]
  have within : ∀ (v : Nat),
      (prBucket v l).Pairwise (fun a b => b.priority.val ≤ a.priority.val) := by
    intro v
    apply List.pairwise_of_forall_mem_list
    intro a ha b hb
    rw [mem_prBucket_val ha, mem_prBucket_val hb]
  have cross : ∀ (v w : Nat), w ≤ v →
      ∀ a ∈ prBucket v l, ∀ b ∈ prBucket w l, b.priority.val ≤ a.priority.val := by
    intro v w hvw a ha b hb
    rw [mem_prBucket_val ha, mem_prBucket_val hb]
    exact hvw
  rw [List.append_assoc, List.append_assoc]
  rw [List.pairwise_append]
  refine ⟨within 4, ?_, ?_⟩
  · rw [List.pairwise_append]
    refine ⟨within 3, ?_, ?_⟩
    · rw [List.pairwise_append]
      refine ⟨within 2, within 1, cross 2 1 (by omega)⟩
    · intro a ha b hb
      rcases List.mem_append.mp hb with h2 | h1
      · exact cross 3 2 (by omega) a ha b h2
      · exact cross 3 1 (by omega) a ha b h1
  · intro a ha b hb
    rcases List.mem_append.mp hb with h3 | h21
    · exact cross 4 3 (by omega) a ha b h3
    · rcases List.mem_append.mp h21 with h2 | h1
      · exact cross 4 2 (by omega) a ha b h2
      · exact cross 4 1 (by omega) a ha b h1

/-- C1: For every SystemState and ProjectContext, `make_decisions` returns at
most 5 decisions, sorted by non-increasing priority, and its output is
exactly the first five of the concatenated analyzer outputs grouped into
descending priority buckets, each bucket keeping the analyzer order
performance, health, security, cost — so equal-priority ties are ordered by
analyzer. -/
theorem make_decisions_capped_sorted_stable (eng : DecisionEngineSt)
    (state : SystemState) (context : ProjectContext) (clk : Clock) :
    ((makeDecisions eng state context clk).1).length ≤ 5 ∧
    ((makeDecisions eng state context clk).1).Pairwise
      (fun a b => b.priority.val ≤ a.priority.val) ∧
    (makeDecisions eng state context clk).1 =
      (prBucket 4 (generatedDecisions eng state context clk)
       ++ prBucket 3 (generatedDecisions eng state context clk)
       ++ prBucket 2 (generatedDecisions eng state context clk)
       ++ prBucket 1 (generatedDecisions eng state context clk)).take 5 ∧
    (∀ v : Nat, prBucket v (generatedDecisions eng state context clk) =
      prBucket v (analyzePerformanceDecisions eng.thresholds state context clk.now)
      ++ prBucket v (analyzeHealthDecisions eng.thresholds state clk.now)
      ++ prBucket v (analyzeSecurityDecisions state clk.now)
      ++ prBucket v (analyzeCostDecisions state context clk.hour clk.now)) := by
  refine ⟨?_, ?_, ?_, ?_⟩
  · show ((pySortDesc (generatedDecisions eng state context clk)).take 5).length ≤ 5
    exact List.length_take_le 5 _
  · exact ((pySortDesc_pairwise _).sublist (List.take_sublist 5 _))
  · show (pySortDesc (generatedDecisions eng state context clk)).take 5 = _
    rw [pySortDesc_eq_buckets]
  · intro v
    simp [generatedDecisions, prBucket, List.filter_append]

/-- A configuration with both autonomy gates disabled. -/
def cfgGatesOff : Config := { auto_scale := false, auto_heal := false }

/-- Engine state carrying the gates-off configuration. -/
def engGatesOff : DecisionEngineSt :=
  { config := cfgGatesOff, decision_history := [], thresholds := defaultThresholds }

/-- A state with CPU above the scale-up threshold and one unhealthy service;
all other metrics are quiet. -/
def stHotCpuUnhealthy : SystemState :=
  { cpu_usage := 85, memory_usage := 50, disk_usage := 50, network_usage := 10,
    response_time := 1, error_rate := 1, request_count := 0,
    service_health := [("web", false)], alerts := [],
    deployment_status := "stable", last_deployment := none }

/-- A production-labelled context with no performance requirements. -/
def ctxProduction : ProjectContext :=
  { project_type := "production", performance_requirements := [] }

/-- A mid-day clock at epoch 0. -/
def clkNoon : Clock := { now := 0, hour := 12 }

/-- C2: the claim requires that disabling `auto_scale` / `auto_heal` makes
the scaling / healing analyzers return no decisions.  The engine never reads
those configuration keys: with both gates off and CPU at 85 plus an
unhealthy service, `make_decisions` still returns a scale_up and a
heal_service decision.  This theorem evaluates the code at that failing
input. -/
theorem auto_flags_not_consulted :
    engGatesOff.config.auto_scale = false ∧
    engGatesOff.config.auto_heal = false ∧
    ((makeDecisions engGatesOff stHotCpuUnhealthy ctxProduction clkNoon).1).countP
      (fun d => decide (d.action_type = ActionType.scale_up)) = 1 ∧
    ((makeDecisions engGatesOff stHotCpuUnhealthy ctxProduction clkNoon).1).countP
      (fun d => decide (d.action_type = ActionType.heal_service)) = 1 := by
  decide

/-- A monitoring state used as a concrete fixture. -/
def msFixture : MonitoringSt :=
  { is_monitoring := true, metrics_history := [], current_alerts := [],
    monitoring_interval := 60 }

/-- C8 counterexample: two `get_status` calls with no intervening events are
not equal, because the result embeds the wall-clock time in its
last_collection field. -/
theorem get_status_not_equal_across_time :
    getStatus msFixture 0 ≠ getStatus msFixture 1 := by
  decide

/-- C8 (amended): with no intervening events, two `get_status` calls agree
on every field except `last_collection`, which records the wall-clock time
of the call itself; with the clock reading fixed the results are equal. -/
theorem get_status_fields_stable (m : MonitoringSt) (t1 t2 : Int) :
    (getStatus m t1).is_monitoring = (getStatus m t2).is_monitoring ∧
    (getStatus m t1).metrics_collected = (getStatus m t2).metrics_collected ∧
    (getStatus m t1).active_alerts = (getStatus m t2).active_alerts ∧
    (getStatus m t1).monitoring_interval = (getStatus m t2).monitoring_interval ∧
    (getStatus m t1).last_collection = t1 :=
  ⟨rfl, rfl, rfl, rfl, rfl⟩

/-- C9: one alert-check pass removes every alert whose timestamp is more
than an hour old and keeps every current alert that is younger than an
hour. -/
theorem alert_pass_prunes_stale (state : SystemState) (alerts : List Alert)
    (secFlag sslFlag : Bool) (now : Int) (a : Alert) :
    (a.timestamp ≤ now - 3600 →
      a ∉ checkAlertsPass state alerts secFlag sslFlag now) ∧
    (a ∈ alerts → now - 3600 < a.timestamp →
      a ∈ checkAlertsPass state alerts secFlag sslFlag now) := by
  constructor
  · intro hstale hmem
    have h := (List.mem_filter.mp hmem).2
    simp only [decide_eq_true_eq] at h
    omega
  · intro hmem hyoung
    exact List.mem_filter.mpr
      ⟨List.mem_append_left _ hmem, by simpa using hyoung⟩

/-- An alert two hours old at clock 0. -/
def alertStale : Alert :=
  { id := "stale", atype := "health", severity := "low",
    message := "old", timestamp := -7200 }

/-- An alert a few minutes old at clock 0. -/
def alertFresh : Alert :=
  { id := "fresh", atype := "health", severity := "low",
    message := "recent", timestamp := -100 }

/-- A quiet system state generating no new alerts. -/
def stQuiet : SystemState :=
  { cpu_usage := 10, memory_usage := 10, disk_usage := 10, network_usage := 10,
    response_time := 1, error_rate := 0, request_count := 0,
    service_health := [("web", true)], alerts := [],
    deployment_status := "stable", last_deployment := none }

/-- C9 witness: on a concrete alert list the stale alert is dropped and the
fresh one survives the pass. -/
theorem alert_pass_prunes_stale_witness :
    alertStale ∉ checkAlertsPass stQuiet [alertStale, alertFresh] false false 0 ∧
    alertFresh ∈ checkAlertsPass stQuiet [alertStale, alertFresh] false false 0 :=
  ⟨(alert_pass_prunes_stale stQuiet [alertStale, alertFresh] false false 0
      alertStale).1 (by decide),
   (alert_pass_prunes_stale stQuiet [alertStale, alertFresh] false false 0
      alertFresh).2 (by decide) (by decide)⟩

theorem tdGet_set_self (d : ThresholdDict) (k : String) (v : List ℚ) :
    tdGet (tdSet d k v) k = v := by
  induction d with
  | nil => simp [tdSet, tdGet]
  | cons p rest ih =>
    by_cases h : p.1 = k
    · simp [tdSet, tdGet, h]
    · simp [tdSet, tdGet, h, ih]

theorem tdGet_set_ne (d : ThresholdDict) (k k2 : String) (v : List ℚ)
    (h : k2 ≠ k) : tdGet (tdSet d k v) k2 = tdGet d k2 := by
  induction d with
  | nil => simp [tdSet, tdGet, Ne.symm h]
  | cons p rest ih =>
    by_cases hp : p.1 = k
    · simp [tdSet, tdGet, hp, Ne.symm h]
    · by_cases hp2 : p.1 = k2
      · simp [tdSet, tdGet, hp, hp2, h]
      · simp [tdSet, tdGet, hp, hp2, ih]

theorem tdGet_of_not_mem (d : ThresholdDict) (k : String)
    (h : tdMem d k = false) : tdGet d k = [] := by
  induction d with
  | nil => simp [tdGet]
  | cons p rest ih =>
    by_cases hp : p.1 = k
    · simp [tdMem, hp] at h
    · simp only [tdMem, if_neg hp] at h
      simp [tdGet, hp, ih h]

/-- The buffer-ensuring step of `_learn_optimal_thresholds` never changes
the observable buffer contents. -/
theorem tdGet_ensure (lt : ThresholdDict) (key k : String) :
    tdGet (if tdMem lt key then lt else tdSet lt key []) k = tdGet lt k := by
  by_cases hm : tdMem lt key
  · simp [hm]
  · rw [if_neg hm]
    by_cases hk : k = key
    · subst hk
      rw [tdGet_set_self, tdGet_of_not_mem lt k (by simpa using hm)]
    · exact tdGet_set_ne lt key k [] hk

/-- C7: the Learning Module appends the before-state CPU value to the
per-action learned-threshold buffer only when overall effectiveness exceeds
0.5 (appending then evicting the oldest entries beyond 50); outcomes with
effectiveness at most 0.5 leave the contents of every buffer unchanged, and the
50-entry cap is preserved. -/
theorem learn_thresholds_gated_capped (lt : ThresholdDict) (o : OutcomeRec) :
    (o.effectiveness ≤ 1/2 →
      ∀ k, tdGet (learnOptimalThresholds lt o) k = tdGet lt k) ∧
    ((∀ k, (tdGet lt k).length ≤ 50) →
      ∀ k, (tdGet (learnOptimalThresholds lt o) k).length ≤ 50) ∧
    ((o.action_type = "scale_up" ∨ o.action_type = "scale_down") →
      1/2 < o.effectiveness →
      tdGet (learnOptimalThresholds lt o) (o.action_type ++ "_cpu_threshold") =
        (if 50 < (tdGet lt (o.action_type ++ "_cpu_threshold")
                   ++ [o.before_cpu]).length
         then (tdGet lt (o.action_type ++ "_cpu_threshold")
                ++ [o.before_cpu]).drop
               ((tdGet lt (o.action_type ++ "_cpu_threshold")
                  ++ [o.before_cpu]).length - 50)
         else tdGet lt (o.action_type ++ "_cpu_threshold") ++ [o.before_cpu]) ∧
      (∀ k, k ≠ o.action_type ++ "_cpu_threshold" →
        tdGet (learnOptimalThresholds lt o) k = tdGet lt k)) := by
  by_cases hact : o.action_type = "scale_up" ∨ o.action_type = "scale_down"
  · by_cases heff : 1/2 < o.effectiveness
    · have hrun : learnOptimalThresholds lt o =
          tdSet (if tdMem lt (o.action_type ++ "_cpu_threshold") then lt
                 else tdSet lt (o.action_type ++ "_cpu_threshold") [])
            (o.action_type ++ "_cpu_threshold")
            (if 50 < (tdGet (if tdMem lt (o.action_type ++ "_cpu_threshold")
                              then lt
                              else tdSet lt (o.action_type ++ "_cpu_threshold") [])
                        (o.action_type ++ "_cpu_threshold")
                       ++ [o.before_cpu]).length
             then (tdGet (if tdMem lt (o.action_type ++ "_cpu_threshold")
                           then lt
                           else tdSet lt (o.action_type ++ "_cpu_threshold") [])
                     (o.action_type ++ "_cpu_threshold")
                    ++ [o.before_cpu]).drop
                   ((tdGet (if tdMem lt (o.action_type ++ "_cpu_threshold")
                             then lt
                             else tdSet lt (o.action_type ++ "_cpu_threshold") [])
                       (o.action_type ++ "_cpu_threshold")
                      ++ [o.before_cpu]).length - 50)
             else tdGet (if tdMem lt (o.action_type ++ "_cpu_threshold")
                          then lt
                          else tdSet lt (o.action_type ++ "_cpu_threshold") [])
                    (o.action_type ++ "_cpu_threshold")
                   ++ [o.before_cpu]) := by
        simp only [learnOptimalThresholds, if_pos hact, if_pos heff]
      refine ⟨fun hle _ => absurd heff (not_lt.mpr hle), ?_, ?_⟩
      · intro hcap k
        rw [hrun]
        by_cases hk : k = o.action_type ++ "_cpu_threshold"
        · rw [hk, tdGet_set_self, tdGet_ensure]
          have hlen : (tdGet lt (o.action_type ++ "_cpu_threshold")).length ≤ 50 :=
            hcap _
          by_cases hbig : 50 <
              (tdGet lt (o.action_type ++ "_cpu_threshold")
               ++ [o.before_cpu]).length
          · rw [if_pos hbig, List.length_drop]
            omega
          · rw [if_neg hbig]
            simp only [List.length_append, List.length_cons,
              List.length_nil] at hbig ⊢
            omega
        · rw [tdGet_set_ne _ _ _ _ hk, tdGet_ensure]
          exact hcap k
      · intro _ _
        constructor
        · rw [hrun, tdGet_set_self, tdGet_ensure]
        · intro k hk
          rw [hrun, tdGet_set_ne _ _ _ _ hk, tdGet_ensure]
    · have hrun : learnOptimalThresholds lt o =
          (if tdMem lt (o.action_type ++ "_cpu_threshold") then lt
           else tdSet lt (o.action_type ++ "_cpu_threshold") []) := by
        simp only [learnOptimalThresholds, if_pos hact, if_neg heff]
      refine ⟨?_, ?_, fun _ h2 => absurd h2 heff⟩
      · intro _ k
        rw [hrun, tdGet_ensure]
      · intro hcap k
        rw [hrun, tdGet_ensure]
        exact hcap k
  · have hrun : learnOptimalThresholds lt o = lt := by
      simp only [learnOptimalThresholds, if_neg hact]
    refine ⟨fun _ k => by rw [hrun], fun hcap k => by rw [hrun]; exact hcap k,
      fun h1 _ => absurd h1 hact⟩

/-- An effective scale-up outcome. -/
def outcomeEffective : OutcomeRec :=
  { action_type := "scale_up", before_cpu := 85, effectiveness := 1 }

/-- An ineffective scale-up outcome. -/
def outcomeIneffective : OutcomeRec :=
  { action_type := "scale_up", before_cpu := 70, effectiveness := 0 }

/-- C7 witness: an effective outcome appends its before-state CPU value to
the scale_up buffer; an ineffective one leaves the buffer empty. -/
theorem learn_thresholds_gated_capped_witness :
    tdGet (learnOptimalThresholds [] outcomeEffective) "scale_up_cpu_threshold"
      = [(85 : ℚ)] ∧
    tdGet (learnOptimalThresholds [] outcomeIneffective) "scale_up_cpu_threshold"
      = [] := by
  constructor
  · have h := (learn_thresholds_gated_capped [] outcomeEffective).2.2
      (Or.inl rfl) (by norm_num [outcomeEffective])
    simpa [tdGet] using h.1
  · have h := (learn_thresholds_gated_capped [] outcomeIneffective).1
      (by norm_num [outcomeIneffective]) "scale_up_cpu_threshold"
    simpa [tdGet] using h

/-- C3: `execute_action` totalizes every failure: an action type outside the
dispatch table (deploy_update, create_alert) yields a `success=false` result
with no side effects (the executor state, hence the issued command list, is
unchanged), and the exception-catch wrapper turns any raised error into a
`success=false` result. -/
theorem execute_action_unknown_and_catch (d : Decision) (cloud : String)
    (o : Oracle) (now : Int) (st : ExecSt) :
    ((d.action_type = ActionType.deploy_update ∨
        d.action_type = ActionType.create_alert) →
      (executeAction d cloud o now st).1.success = false ∧
      (executeAction d cloud o now st).2 = st) ∧
    (∀ e, (catchToResult d now st (Except.error e)).1.success = false) := by
  constructor
  · intro h
    rcases h with h | h <;>
      simp [executeAction, executeActionTry, h, catchToResult,
        unknownActionResult]
  · intro e
    rfl

/-- A decision whose action type has no handler in `execute_action`. -/
def dNoHandler : Decision :=
  { action_type := .deploy_update, priority := .low, target := "app",
    parameters := [], reasoning := "r", timestamp := 0,
    expected_outcome := "e" }

/-- C3 witness: the undispatched deploy_update decision yields a failure
result and leaves the executor state untouched. -/
theorem execute_action_unknown_and_catch_witness :
    (executeAction dNoHandler "aws" (fun _ => true) 0 ⟨0, []⟩).1.success = false ∧
    (executeAction dNoHandler "aws" (fun _ => true) 0 ⟨0, []⟩).2 = ⟨0, []⟩ :=
  (execute_action_unknown_and_catch dNoHandler "aws" (fun _ => true) 0
    ⟨0, []⟩).1 (Or.inl rfl)

theorem deployLoop_overall_true (o : Oracle) (now : Int) :
    ∀ (stages : List Stage) (st : ExecSt) (ov : Bool)
      (acc : List ExecutionResult),
      (deployLoop o now stages st ov acc).1 = true →
      ov = true ∧
      ∀ r ∈ (deployLoop o now stages st ov acc).2.1, r ∈ acc ∨ r.success = true := by
  intro stages
  induction stages with
  | nil =>
    intro st ov acc h
    exact ⟨h, fun r hr => Or.inl hr⟩
  | cons s rest ih =>
    intro st ov acc h
    by_cases hs : (executePipelineStage s o now st).1.success = true
    · simp only [deployLoop, hs, if_true] at h ⊢
      obtain ⟨hov, hall⟩ := ih _ ov _ h
      refine ⟨hov, fun r hr => ?_⟩
      rcases hall r hr with hacc | hsucc
      · rcases List.mem_append.mp hacc with h1 | h2
        · exact Or.inl h1
        · right
          rw [List.mem_singleton.mp h2]
          exact hs
      · exact Or.inr hsucc
    · by_cases hn : s.name = "deploy_production"
      · simp only [deployLoop, hs, if_false, hn, if_true] at h
        obtain ⟨hov, _⟩ := ih _ false _ h
        exact absurd hov (by simp)
      · simp only [deployLoop, hs, if_false, hn, if_true] at h
        exact absurd h (by simp)

/-- C4: in `execute_deployment`, a failing stage aborts all subsequent
stages and fixes `overall_success=false` — unless the failing stage is named
"deploy_production", in which case the loop continues (with
`overall_success` already false); any failed stage result forces
`overall_success=false`. -/
theorem deployment_abort_asymmetry :
    (∀ (s : Stage) (rest : List Stage) (o : Oracle) (now : Int) (st : ExecSt)
        (ov : Bool) (acc : List ExecutionResult),
      ((executePipelineStage s o now st).1.success = false →
        s.name ≠ "deploy_production" →
        deployLoop o now (s :: rest) st ov acc =
          (false, acc ++ [(executePipelineStage s o now st).1],
           (executePipelineStage s o now st).2)) ∧
      ((executePipelineStage s o now st).1.success = false →
        s.name = "deploy_production" →
        deployLoop o now (s :: rest) st ov acc =
          deployLoop o now rest (executePipelineStage s o now st).2 false
            (acc ++ [(executePipelineStage s o now st).1]))) ∧
    (∀ (stages : List Stage) (o : Oracle) (now : Int) (r : ExecutionResult),
      r ∈ (executeDeployment stages o now).stage_results →
      r.success = false →
      (executeDeployment stages o now).overall_success = false) := by
  constructor
  · intro s rest o now st ov acc
    constructor
    · intro hfail hname
      simp only [deployLoop, hfail, Bool.false_eq_true, if_false, hname,
        if_true]
    · intro hfail hname
      simp only [deployLoop, hfail, Bool.false_eq_true, if_false, hname,
        if_true]
  · intro stages o now r hr hfail
    by_contra hov
    have hov2 : (deployLoop o now stages ⟨0, []⟩ true []).1 = true := by
      cases h : (deployLoop o now stages ⟨0, []⟩ true []).1
      · exact absurd h (by simpa [executeDeployment] using hov)
      · rfl
    obtain ⟨_, hall⟩ := deployLoop_overall_true o now stages ⟨0, []⟩ true [] hov2
    have hr2 : r ∈ (deployLoop o now stages ⟨0, []⟩ true []).2.1 := hr
    rcases hall r hr2 with habs | hsucc
    · exact absurd habs (List.not_mem_nil r)
    · rw [hfail] at hsucc
      exact absurd hsucc (by simp)

/-- A test stage named build, used to fail under an all-false oracle. -/
def stageBuildTest : Stage := { name := "build", stype := "test", cfg := [] }

/-- A second stage, never reached in the abort witness. -/
def stageNext : Stage := { name := "next", stype := "test", cfg := [] }

/-- C4 witness: under an all-false oracle, the failing non-production stage
stops the loop after its own result, and the deployment reports
`overall_success=false`. -/
theorem deployment_abort_asymmetry_witness :
    deployLoop (fun _ => false) 0 [stageBuildTest, stageNext] ⟨0, []⟩ true [] =
      (false,
       [(executePipelineStage stageBuildTest (fun _ => false) 0 ⟨0, []⟩).1],
       (executePipelineStage stageBuildTest (fun _ => false) 0 ⟨0, []⟩).2) ∧
    (executeDeployment [stageBuildTest, stageNext] (fun _ => false) 0).overall_success
      = false :=
  ⟨(deployment_abort_asymmetry.1 stageBuildTest [stageNext] (fun _ => false) 0
      ⟨0, []⟩ true []).1 (by decide) (by decide),
   deployment_abort_asymmetry.2 [stageBuildTest, stageNext] (fun _ => false) 0
     (executePipelineStage stageBuildTest (fun _ => false) 0 ⟨0, []⟩).1
     (by decide) (by decide)⟩

theorem healLoop_cmds_le (o : Oracle) (now : Int) (target action : String)
    (maxA : Nat) :
    ∀ (rem att : Nat) (st : ExecSt),
      ((healLoop o now target action maxA rem att st).2).cmds.length
        ≤ st.cmds.length + rem := by
  intro rem
  induction rem with
  | zero => intro att st; simp [healLoop]
  | succ r ih =>
    intro att st
    by_cases ha : action = "restart"
    · simp only [healLoop, ha, if_true]
      by_cases hok : o st.idx = true
      · simp only [runCommand, hok, if_true]
        simp
      · have hok2 : o st.idx = false := by
          cases h : o st.idx
          · rfl
          · exact absurd h hok
        simp only [runCommand, hok2, Bool.false_eq_true, if_false]
        have := ih (att + 1) { idx := st.idx + 1, cmds := st.cmds ++ ["systemctl restart " ++ target] }
        rw [ha] at this
        simp only [List.length_append, List.length_cons, List.length_nil] at this
        omega
    · simp only [healLoop, ha, if_false]
      have := ih (att + 1) st
      omega

theorem healLoop_all_fail (o : Oracle) (now : Int) (target : String)
    (maxA : Nat) :
    ∀ (rem att : Nat) (st : ExecSt),
      (∀ i, i < rem → o (st.idx + i) = false) →
      (healLoop o now target "restart" maxA rem att st).1.success = false ∧
      ((healLoop o now target "restart" maxA rem att st).2).cmds.length
        = st.cmds.length + rem := by
  intro rem
  induction rem with
  | zero => intro att st _; simp [healLoop, healFailResult]
  | succ r ih =>
    intro att st hfails
    have h0 : o st.idx = false := by
      have := hfails 0 (by omega)
      simpa using this
    simp only [healLoop, if_true, runCommand, h0, Bool.false_eq_true, if_false]
    have hrec := ih (att + 1)
      { idx := st.idx + 1, cmds := st.cmds ++ ["systemctl restart " ++ target] }
      (by
        intro i hi
        have := hfails (i + 1) (by omega)
        have harith : st.idx + (i + 1) = st.idx + 1 + i := by omega
        rw [harith] at this
        exact this)
    refine ⟨hrec.1, ?_⟩
    rw [hrec.2]
    simp
    omega

theorem healLoop_first_success (o : Oracle) (now : Int) (target : String)
    (maxA : Nat) :
    ∀ (j rem att : Nat) (st : ExecSt),
      j < rem → o (st.idx + j) = true →
      (∀ i, i < j → o (st.idx + i) = false) →
      (healLoop o now target "restart" maxA rem att st).1.success = true ∧
      ((healLoop o now target "restart" maxA rem att st).2).cmds.length
        = st.cmds.length + j + 1 := by
  intro j
  induction j with
  | zero =>
    intro rem att st hlt hok _
    cases rem with
    | zero => omega
    | succ r =>
      have h0 : o st.idx = true := by simpa using hok
      simp only [healLoop, if_true, runCommand, h0]
      simp [healOkResult]
  | succ i ih =>
    intro rem att st hlt hok hfails
    cases rem with
    | zero => omega
    | succ r =>
      have h0 : o st.idx = false := by
        have := hfails 0 (by omega)
        simpa using this
      simp only [healLoop, if_true, runCommand, h0, Bool.false_eq_true,
        if_false]
      have hrec := ih r (att + 1)
        { idx := st.idx + 1, cmds := st.cmds ++ ["systemctl restart " ++ target] }
        (by omega)
        (by
          have harith : st.idx + (i + 1) = st.idx + 1 + i := by omega
          rw [harith] at hok
          exact hok)
        (by
          intro i2 hi2
          have := hfails (i2 + 1) (by omega)
          have harith : st.idx + (i2 + 1) = st.idx + 1 + i2 := by omega
          rw [harith] at this
          exact this)
      refine ⟨hrec.1, ?_⟩
      rw [hrec.2]
      simp
      omega

/-- C5: the heal handler runs the restart command at most `max_attempts`
times; when the command fails on every attempt it runs exactly `max_attempts`
commands and reports failure; and it stops with success right after the
first successful attempt. -/
theorem heal_service_retry_semantics (d : Decision) (o : Oracle) (now : Int)
    (k : Nat) :
    ((executeHealService d o now ⟨k, []⟩).2).cmds.length
        ≤ pgetNat d.parameters "max_attempts" 3 ∧
    (pgetStr d.parameters "action" "restart" = "restart" →
      (∀ i, i < pgetNat d.parameters "max_attempts" 3 → o (k + i) = false) →
      (executeHealService d o now ⟨k, []⟩).1.success = false ∧
      ((executeHealService d o now ⟨k, []⟩).2).cmds.length
        = pgetNat d.parameters "max_attempts" 3) ∧
    (∀ j, pgetStr d.parameters "action" "restart" = "restart" →
      j < pgetNat d.parameters "max_attempts" 3 → o (k + j) = true →
      (∀ i, i < j → o (k + i) = false) →
      (executeHealService d o now ⟨k, []⟩).1.success = true ∧
      ((executeHealService d o now ⟨k, []⟩).2).cmds.length = j + 1) := by
  refine ⟨?_, ?_, ?_⟩
  · have := healLoop_cmds_le o now d.target
      (pgetStr d.parameters "action" "restart")
      (pgetNat d.parameters "max_attempts" 3)
      (pgetNat d.parameters "max_attempts" 3) 0 ⟨k, []⟩
    simpa [executeHealService] using this
  · intro hact hfails
    have := healLoop_all_fail o now d.target
      (pgetNat d.parameters "max_attempts" 3)
      (pgetNat d.parameters "max_attempts" 3) 0 ⟨k, []⟩ hfails
    rw [executeHealService, hact]
    simpa using this
  · intro j hact hlt hok hfails
    have := healLoop_first_success o now d.target
      (pgetNat d.parameters "max_attempts" 3) j
      (pgetNat d.parameters "max_attempts" 3) 0 ⟨k, []⟩ hlt hok hfails
    rw [executeHealService, hact]
    simpa using this

/-- A heal decision with the parameters `make_decisions` attaches. -/
def dHeal : Decision :=
  { action_type := .heal_service, priority := .critical, target := "web",
    parameters := [("action", PVal.s "restart"), ("max_attempts", PVal.n 3)],
    reasoning := "r", timestamp := 0, expected_outcome := "e" }

/-- C5 witness: with `max_attempts=3` and an always-failing command
capability, exactly 3 commands are issued and the result is a failure. -/
theorem heal_service_retry_semantics_witness :
    (executeHealService dHeal (fun _ => false) 0 ⟨0, []⟩).1.success = false ∧
    ((executeHealService dHeal (fun _ => false) 0 ⟨0, []⟩).2).cmds.length = 3 :=
  (heal_service_retry_semantics dHeal (fun _ => false) 0 0).2.1 rfl
    (fun _ _ => rfl)

/-- The predicate "is the CRITICAL heal decision for service `s`". -/
def isHealFor (s : String) (d : Decision) : Bool :=
  decide (d.action_type = ActionType.heal_service ∧ d.target = s ∧
    d.priority = Priority.critical)

theorem mem_analyzePerf {th : Thresholds} {st : SystemState}
    {ctx : ProjectContext} {now : Int} {d : Decision}
    (hd : d ∈ analyzePerformanceDecisions th st ctx now) :
    d.timestamp = now ∧ d.action_type ≠ ActionType.heal_service := by
  simp only [analyzePerformanceDecisions, List.mem_append] at hd
  rcases hd with (h | h) | h
  · split at h
    · rw [List.mem_singleton.mp h]; simp [mkCpuScaleUp]
    · split at h
      · rw [List.mem_singleton.mp h]; simp [mkCpuScaleDown]
      · cases h
  · split at h
    · rw [List.mem_singleton.mp h]; simp [mkMemScaleUp]
    · cases h
  · split at h
    · split at h
      · rw [List.mem_singleton.mp h]; simp [mkCacheOptimize]
      · rw [List.mem_singleton.mp h]; simp [mkRtScaleUp]
    · cases h

theorem mem_healDecisionList {l : List (String × Bool)} {now : Int}
    {d : Decision} (hd : d ∈ healDecisionList l now) :
    d.timestamp = now ∧ d.action_type = ActionType.heal_service := by
  simp only [healDecisionList, List.mem_filterMap] at hd
  obtain ⟨p, _, hp⟩ := hd
  split at hp
  · cases hp
  · rw [← Option.some_inj.mp hp]
    simp [mkHealDecision]

theorem mem_analyzeHealth {th : Thresholds} {st : SystemState} {now : Int}
    {d : Decision} (hd : d ∈ analyzeHealthDecisions th st now) :
    d.timestamp = now := by
  simp only [analyzeHealthDecisions, List.mem_append] at hd
  rcases hd with (h | h) | h
  · exact (mem_healDecisionList h).1
  · split at h
    · split at h
      · split at h
        · rw [List.mem_singleton.mp h]; simp [mkRollbackDecision]
        · rw [List.mem_singleton.mp h]; simp [mkRestartDecision]
      · rw [List.mem_singleton.mp h]; simp [mkRestartDecision]
    · cases h
  · split at h
    · rw [List.mem_singleton.mp h]; simp [mkDiskCleanup]
    · cases h

theorem mem_analyzeSecurity {st : SystemState} {now : Int} {d : Decision}
    (hd : d ∈ analyzeSecurityDecisions st now) :
    d.timestamp = now ∧ d.action_type = ActionType.update_security := by
  simp only [analyzeSecurityDecisions, List.mem_append, List.mem_filterMap]
    at hd
  rcases hd with ⟨a, _, ha⟩ | ⟨a, _, ha⟩
  · split at ha
    · rw [← Option.some_inj.mp ha]; simp [mkSecurityBlock]
    · cases ha
  · split at ha
    · rw [← Option.some_inj.mp ha]; simp [mkSslRenew]
    · cases ha

theorem mem_analyzeCost {st : SystemState} {ctx : ProjectContext}
    {hour : Nat} {now : Int} {d : Decision}
    (hd : d ∈ analyzeCostDecisions st ctx hour now) :
    d.timestamp = now ∧ d.action_type ≠ ActionType.heal_service := by
  simp only [analyzeCostDecisions, List.mem_append] at hd
  rcases hd with h | h
  · split at h
    · split at h
      · rw [List.mem_singleton.mp h]; simp [mkOffHoursScaleDown]
      · cases h
    · cases h
  · split at h
    · rw [List.mem_singleton.mp h]; simp [mkUnusedOptimize]
    · cases h

theorem mem_generatedDecisions_timestamp {eng : DecisionEngineSt}
    {st : SystemState} {ctx : ProjectContext} {clk : Clock} {d : Decision}
    (hd : d ∈ generatedDecisions eng st ctx clk) : d.timestamp = clk.now := by
  simp only [generatedDecisions, List.mem_append] at hd
  rcases hd with ((h | h) | h) | h
  · exact (mem_analyzePerf h).1
  · exact mem_analyzeHealth h
  · exact (mem_analyzeSecurity h).1
  · exact (mem_analyzeCost h).1

theorem countP_healDecisionList (l : List (String × Bool)) (s : String)
    (now : Int) :
    (healDecisionList l now).countP (isHealFor s) =
      l.countP (fun p => decide (p.1 = s ∧ p.2 = false)) := by
  induction l with
  | nil => rfl
  | cons p rest ih =>
    rcases p with ⟨svc, healthy⟩
    cases healthy
    · have hexp : healDecisionList ((svc, false) :: rest) now
          = mkHealDecision svc now :: healDecisionList rest now := by
        simp [healDecisionList, List.filterMap_cons]
      rw [hexp, List.countP_cons, ih, List.countP_cons]
      by_cases hs : svc = s
      · simp [isHealFor, mkHealDecision, hs]
      · simp [isHealFor, mkHealDecision, hs]
    · have hexp : healDecisionList ((svc, true) :: rest) now
          = healDecisionList rest now := by
        simp [healDecisionList, List.filterMap_cons]
      rw [hexp, ih, List.countP_cons]
      simp

theorem countP_unique_key (l : List (String × Bool)) (s : String)
    (hnd : (l.map Prod.fst).Nodup) (hmem : (s, false) ∈ l) :
    l.countP (fun p => decide (p.1 = s ∧ p.2 = false)) = 1 := by
  induction l with
  | nil => cases hmem
  | cons p rest ih =>
    rw [List.map_cons, List.nodup_cons] at hnd
    rcases List.mem_cons.mp hmem with hp | hrest
    · rw [List.countP_cons]
      have hzero : rest.countP (fun p => decide (p.1 = s ∧ p.2 = false)) = 0 := by
        apply List.countP_eq_zero.mpr
        intro q hq
        simp only [decide_eq_true_eq, not_and]
        intro hq1 _
        rw [← hp] at hnd
        exact absurd (List.mem_map.mpr ⟨q, hq, hq1⟩) hnd.1
      rw [hzero, ← hp]
      simp
    · rw [List.countP_cons]
      have hp0 : ¬(p.1 = s ∧ p.2 = false) := by
        rintro ⟨h1, h2⟩
        have : p = (s, false) := Prod.ext h1 h2
        rw [this] at hnd
        exact hnd.1 (List.mem_map.mpr ⟨(s, false), hrest, rfl⟩)
      rw [ih hnd.2 hrest]
      simp [hp0]

theorem countP_analyzePerf_zero (th : Thresholds) (st : SystemState)
    (ctx : ProjectContext) (now : Int) (s : String) :
    (analyzePerformanceDecisions th st ctx now).countP (isHealFor s) = 0 := by
  apply List.countP_eq_zero.mpr
  intro d hd
  simp only [isHealFor, decide_eq_true_eq, not_and]
  intro hact
  exact absurd hact (mem_analyzePerf hd).2

theorem countP_analyzeSecurity_zero (st : SystemState) (now : Int)
    (s : String) :
    (analyzeSecurityDecisions st now).countP (isHealFor s) = 0 := by
  apply List.countP_eq_zero.mpr
  intro d hd
  simp only [isHealFor, decide_eq_true_eq, not_and]
  intro hact
  rw [(mem_analyzeSecurity hd).2] at hact
  cases hact

theorem countP_analyzeCost_zero (st : SystemState) (ctx : ProjectContext)
    (hour : Nat) (now : Int) (s : String) :
    (analyzeCostDecisions st ctx hour now).countP (isHealFor s) = 0 := by
  apply List.countP_eq_zero.mpr
  intro d hd
  simp only [isHealFor, decide_eq_true_eq, not_and]
  intro hact
  exact absurd hact (mem_analyzeCost hd).2

theorem countP_analyzeHealth (th : Thresholds) (st : SystemState) (now : Int)
    (s : String) :
    (analyzeHealthDecisions th st now).countP (isHealFor s) =
      st.service_health.countP (fun p => decide (p.1 = s ∧ p.2 = false)) := by
  have herr0 : List.countP (isHealFor s)
      (if st.error_rate > th.error_rate then
        (match st.last_deployment with
         | some t => if now - t < 3600 then [mkRollbackDecision now]
                     else [mkRestartDecision now]
         | none => [mkRestartDecision now])
       else []) = 0 := by
    apply List.countP_eq_zero.mpr
    intro d hd
    split at hd
    · split at hd
      · split at hd
        · rw [List.mem_singleton.mp hd]; simp [isHealFor, mkRollbackDecision]
        · rw [List.mem_singleton.mp hd]; simp [isHealFor, mkRestartDecision]
      · rw [List.mem_singleton.mp hd]; simp [isHealFor, mkRestartDecision]
    · cases hd
  have hdisk0 : List.countP (isHealFor s)
      (if st.disk_usage > th.disk_usage then [mkDiskCleanup now] else []) = 0 := by
    apply List.countP_eq_zero.mpr
    intro d hd
    split at hd
    · rw [List.mem_singleton.mp hd]; simp [isHealFor, mkDiskCleanup]
    · cases hd
  rw [analyzeHealthDecisions, List.countP_append, List.countP_append,
    herr0, hdisk0, countP_healDecisionList]
  omega

/-- C6 (amended): whenever a service is marked unhealthy, provided the cycle
generated at most 5 decisions in total (so the output cap drops nothing),
the list returned by `make_decisions` contains exactly one CRITICAL
heal_service decision targeting that service. -/
theorem heal_per_unhealthy_service (eng : DecisionEngineSt)
    (st : SystemState) (ctx : ProjectContext) (clk : Clock) (s : String)
    (hnd : (st.service_health.map Prod.fst).Nodup)
    (hmem : (s, false) ∈ st.service_health)
    (hlen : (generatedDecisions eng st ctx clk).length ≤ 5) :
    ((makeDecisions eng st ctx clk).1).countP (isHealFor s) = 1 := by
  have hperm := pySortDesc_perm (generatedDecisions eng st ctx clk)
  have hlen2 : (pySortDesc (generatedDecisions eng st ctx clk)).length ≤ 5 := by
    rw [hperm.length_eq]
    exact hlen
  show ((pySortDesc (generatedDecisions eng st ctx clk)).take 5).countP _ = 1
  rw [List.take_of_length_le hlen2, hperm.countP_eq]
  rw [generatedDecisions, List.countP_append, List.countP_append,
    List.countP_append]
  rw [countP_analyzePerf_zero, countP_analyzeSecurity_zero,
    countP_analyzeCost_zero, countP_analyzeHealth,
    countP_unique_key st.service_health s hnd hmem]

/-- An engine with the default configuration and empty history. -/
def engDefault : DecisionEngineSt :=
  { config := {}, decision_history := [], thresholds := defaultThresholds }

/-- A quiet state except that six services are unhealthy, so one cycle
generates six CRITICAL heal decisions. -/
def stSixUnhealthy : SystemState :=
  { cpu_usage := 50, memory_usage := 50, disk_usage := 50, network_usage := 10,
    response_time := 1, error_rate := 1, request_count := 0,
    service_health := [("s1", false), ("s2", false), ("s3", false),
                       ("s4", false), ("s5", false), ("s6", false)],
    alerts := [], deployment_status := "stable", last_deployment := none }

/-- C6 counterexample: with six unhealthy services, service s6 is unhealthy
yet the returned decision list contains no heal decision for it — the
5-decision cap drops it, refuting the claim as stated. -/
theorem heal_per_unhealthy_service_counterexample :
    ("s6", false) ∈ stSixUnhealthy.service_health ∧
    ((makeDecisions engDefault stSixUnhealthy ctxProduction clkNoon).1).countP
      (isHealFor "s6") = 0 := by
  decide

/-- C6 witness: with one unhealthy service and only two generated decisions,
the returned list contains exactly one CRITICAL heal decision for it. -/
theorem heal_per_unhealthy_service_witness :
    ((makeDecisions engDefault stHotCpuUnhealthy ctxProduction clkNoon).1).countP
      (isHealFor "web") = 1 :=
  heal_per_unhealthy_service engDefault stHotCpuUnhealthy ctxProduction
    clkNoon "web" (by decide) (by decide) (by decide)

/-- C10: `make_decisions` appends the whole sorted analyzer output to the
24-hour history before applying the 5-decision cap: the new history is the
pruned old history plus every generated decision, so with more than five
generated decisions the history and the recent-decisions report contain a
decision (here the heal of service s6) that was never returned for
execution. -/
theorem history_holds_uncapped_decisions (eng : DecisionEngineSt)
    (st : SystemState) (ctx : ProjectContext) (clk : Clock) :
    ((makeDecisions eng st ctx clk).2 =
      (eng.decision_history ++ pySortDesc (generatedDecisions eng st ctx clk)).filter
        (fun d => decide (clk.now - 86400 < d.timestamp))) ∧
    (∀ d ∈ pySortDesc (generatedDecisions eng st ctx clk),
      d ∈ (makeDecisions eng st ctx clk).2) ∧
    (mkHealDecision "s6" 0 ∈
        (makeDecisions engDefault stSixUnhealthy ctxProduction clkNoon).2 ∧
     mkHealDecision "s6" 0 ∉
        (makeDecisions engDefault stSixUnhealthy ctxProduction clkNoon).1 ∧
     ({ action := "heal_service", priority := "CRITICAL", target := "s6",
        reasoning := "Service s6 is unhealthy", timestamp := 0 } :
          RecentDecisionRec) ∈
        getRecentDecisions
          (makeDecisions engDefault stSixUnhealthy ctxProduction clkNoon).2
          clkNoon.now) := by
  refine ⟨rfl, ?_, by decide⟩
  intro d hd
  have hts : d.timestamp = clk.now :=
    mem_generatedDecisions_timestamp
      ((pySortDesc_perm (generatedDecisions eng st ctx clk)).mem_iff.mp hd)
  show d ∈ (eng.decision_history ++ pySortDesc (generatedDecisions eng st ctx clk)).filter _
  refine List.mem_filter.mpr ⟨List.mem_append_right _ hd, ?_⟩
  rw [hts]
  simp only [decide_eq_true_eq]
  omega

/-- C10 witness: on the quiet one-unhealthy-service cycle the generated heal
decision is recorded in the new history. -/
theorem history_holds_uncapped_decisions_witness :
    mkHealDecision "web" 0 ∈
      (makeDecisions engDefault stHotCpuUnhealthy ctxProduction clkNoon).2 :=
  (history_holds_uncapped_decisions engDefault stHotCpuUnhealthy
    ctxProduction clkNoon).2.1 (mkHealDecision "web" 0) (by decide)

end DevopsAgent
